import Mathlib

/-!
Verification of the LUCI emission-line fitting engine (`LUCI/LuciFit.py`).

This file gives a shallow embedding of the parts of the `Fit` class that the
spec's claims are about: the filter-dependent wavelength restriction, the
noise-region selection, the analytic prior estimator, the constraint builders
for shared-velocity / shared-width groups and multiple components, the
construction-time validation checks, the chi-square computation, the result
dictionary assembly, and the uncertainty-vector bookkeeping.

Flux and axis values are modelled as rationals; numpy index computations
(`np.argmin`, `np.argmax`) are modelled with their documented first-occurrence
tie-breaking.
-/

namespace LuciFit

/-! ### numpy index helpers

`np.argmin` / `np.argmax` over the first `n` values of `f`, returning the
FIRST index attaining the extremum (numpy's documented tie-breaking).
`argminIdx f n` considers indices `0, 1, ..., n-1`; the value at `0` for
`n = 0` is junk (numpy raises there, callers establish `0 < n`). -/

def argminIdx (f : Nat → ℚ) : Nat → Nat
  | 0 => 0
  | n + 1 =>
    let p := argminIdx f n
    if f n < f p then n else p

def argmaxIdx (f : Nat → ℚ) : Nat → Nat
  | 0 => 0
  | n + 1 =>
    let p := argmaxIdx f n
    if f p < f n then n else p

theorem argminIdx_isFirstMin (f : Nat → ℚ) :
    ∀ n, 0 < n →
      argminIdx f n < n ∧ (∀ j, j < n → f (argminIdx f n) ≤ f j) ∧
        (∀ j, j < argminIdx f n → f (argminIdx f n) < f j) := by
  intro n
  induction n with
  | zero => intro h; exact absurd h (by simp)
  | succ m ih =>
    intro _
    rcases Nat.eq_zero_or_pos m with hm | hm
    · subst hm
      refine ⟨by simp [argminIdx], ?_, ?_⟩
      · intro j hj
        interval_cases j
        simp [argminIdx]
      · intro j hj
        simp [argminIdx] at hj
    · obtain ⟨hlt, hmin, hfirst⟩ := ih hm
      by_cases hcmp : f m < f (argminIdx f m)
      · have harg : argminIdx f (m + 1) = m := by simp [argminIdx, hcmp]
        refine ⟨by omega, ?_, ?_⟩
        · intro j hj
          rw [harg]
          rcases Nat.lt_succ_iff_lt_or_eq.mp hj with h | h
          · exact le_of_lt (lt_of_lt_of_le hcmp (hmin j h))
          · subst h; exact le_refl _
        · intro j hj
          rw [harg] at hj ⊢
          exact lt_of_lt_of_le hcmp (hmin j hj)
      · have harg : argminIdx f (m + 1) = argminIdx f m := by simp [argminIdx, hcmp]
        refine ⟨by omega, ?_, ?_⟩
        · intro j hj
          rw [harg]
          rcases Nat.lt_succ_iff_lt_or_eq.mp hj with h | h
          · exact hmin j h
          · subst h; exact le_of_not_lt hcmp
        · intro j hj
          rw [harg] at hj ⊢
          exact hfirst j hj

theorem argmaxIdx_isFirstMax (f : Nat → ℚ) :
    ∀ n, 0 < n →
      argmaxIdx f n < n ∧ (∀ j, j < n → f j ≤ f (argmaxIdx f n)) ∧
        (∀ j, j < argmaxIdx f n → f j < f (argmaxIdx f n)) := by
  intro n
  induction n with
  | zero => intro h; exact absurd h (by simp)
  | succ m ih =>
    intro _
    rcases Nat.eq_zero_or_pos m with hm | hm
    · subst hm
      refine ⟨by simp [argmaxIdx], ?_, ?_⟩
      · intro j hj
        interval_cases j
        simp [argmaxIdx]
      · intro j hj
        simp [argmaxIdx] at hj
    · obtain ⟨hlt, hmax, hfirst⟩ := ih hm
      by_cases hcmp : f (argmaxIdx f m) < f m
      · have harg : argmaxIdx f (m + 1) = m := by simp [argmaxIdx, hcmp]
        refine ⟨by omega, ?_, ?_⟩
        · intro j hj
          rw [harg]
          rcases Nat.lt_succ_iff_lt_or_eq.mp hj with h | h
          · exact le_of_lt (lt_of_le_of_lt (hmax j h) hcmp)
          · subst h; exact le_refl _
        · intro j hj
          rw [harg] at hj ⊢
          exact lt_of_le_of_lt (hmax j hj) hcmp
      · have harg : argmaxIdx f (m + 1) = argmaxIdx f m := by simp [argmaxIdx, hcmp]
        refine ⟨by omega, ?_, ?_⟩
        · intro j hj
          rw [harg]
          rcases Nat.lt_succ_iff_lt_or_eq.mp hj with h | h
          · exact hmax j h
          · subst h; exact le_of_not_lt hcmp
        · intro j hj
          rw [harg] at hj ⊢
          exact hfirst j hj

/-! ### Line catalog and session constants (Fit.__init__) -/

/-- Rest-frame wavelengths (nm) of the supported lines, `Fit.__init__`'s
`self.line_dict` (LuciFit.py lines 78-81). -/
def line_dict : List (String × ℚ) :=
  [("Halpha", 656.280), ("NII6583", 658.341), ("NII6548", 654.803),
   ("SII6716", 671.647), ("SII6731", 673.085), ("OII3726", 372.603),
   ("OII3729", 372.882), ("OIII4959", 495.891), ("OIII5007", 500.684),
   ("Hbeta", 486.133)]

/-- Keys of `line_dict`, the catalog of requestable line names. -/
def line_dict_keys : List String := line_dict.map Prod.fst

/-- Supported fitting functions, `self.available_functions` (line 82). -/
def available_functions : List String := ["gaussian", "sinc", "sincgauss"]

/-! ### SpectrumPreprocessor: filter windows (restrict_wavelength, calculate_noise)

`restrict_wavelength` (lines 174-201) and `calculate_noise` (lines 204-233)
dispatch on `self.filter`: supported filters select literal lower/upper
wavenumber bounds; any other filter only PRINTS a message and leaves the
module-level globals `bound_lower` / `bound_upper` at whatever a previous
call set them to (a NameError if they were never set). -/

/-- Bound selection of `restrict_wavelength` (lines 181-196): `some (lo, hi)`
for a supported filter, `none` when only the unsupported-filter message is
printed. The C4 filter reuses the SN3 bounds only when Halpha is requested. -/
def filter_bounds (filt : String) (lines : List String) : Option (ℚ × ℚ) :=
  if filt = "SN3" then some (14500, 15400)
  else if filt = "SN2" then some (19500, 20750)
  else if filt = "SN1" then some (26000, 27400)
  else if filt = "C4" ∧ "Halpha" ∈ lines then some (14500, 15400)
  else none

/-- Bound selection of `calculate_noise` (lines 213-228): the off-band noise
region per filter. -/
def noise_bounds (filt : String) (lines : List String) : Option (ℚ × ℚ) :=
  if filt = "SN3" then some (14300, 14500)
  else if filt = "SN2" then some (18600, 19000)
  else if filt = "SN1" then some (25300, 25700)
  else if filt = "C4" ∧ "Halpha" ∈ lines then some (14300, 14500)
  else none

/-- Message printed by both dispatchers for an unrecognized filter
(lines 196 and 228). -/
def unsupported_filter_msg : String :=
  "The filter of your datacube is not supported by LUCI. We only support SN1, SN2, and SN3 at the moment."

/-- Index pair computed by `restrict_wavelength` once bounds are selected
(lines 197-198): nearest axis index to each bound via `np.argmin` of the
absolute differences. -/
def restrict_wavelength_idx (axis : List ℚ) (bl bu : ℚ) : Nat × Nat :=
  (argminIdx (fun i => |axis.getD i 0 - bl|) axis.length,
   argminIdx (fun i => |axis.getD i 0 - bu|) axis.length)

theorem filter_bounds_ordered (filt : String) (lines : List String) (bl bu : ℚ)
    (h : filter_bounds filt lines = some (bl, bu)) : bl < bu := by
  unfold filter_bounds at h
  split at h
  · injection h with h; injection h with h1 h2; rw [← h1, ← h2]; norm_num
  · split at h
    · injection h with h; injection h with h1 h2; rw [← h1, ← h2]; norm_num
    · split at h
      · injection h with h; injection h with h1 h2; rw [← h1, ← h2]; norm_num
      · split at h
        · injection h with h; injection h with h1 h2; rw [← h1, ← h2]; norm_num
        · exact absurd h (by simp)

/-- On a strictly increasing sequence, the first nearest-index to a smaller
target is never to the right of the first nearest-index to a larger target. -/
theorem argminIdx_abs_mono (a : Nat → ℚ) (n : Nat) (L U : ℚ) (hn : 0 < n)
    (hmono : ∀ i j, i < j → j < n → a i < a j) (hLU : L < U) :
    argminIdx (fun i => |a i - L|) n ≤ argminIdx (fun i => |a i - U|) n := by
  by_contra hcon
  push_neg at hcon
  obtain ⟨hLlt, _, hLfirst⟩ := argminIdx_isFirstMin (fun i => |a i - L|) n hn
  obtain ⟨hUlt, hUmin, _⟩ := argminIdx_isFirstMin (fun i => |a i - U|) n hn
  set iL := argminIdx (fun i => |a i - L|) n with hiL
  set iU := argminIdx (fun i => |a i - U|) n with hiU
  have h1 : |a iL - L| < |a iU - L| := hLfirst iU hcon
  have h2 : |a iU - U| ≤ |a iL - U| := hUmin iL hLlt
  have h3 : a iU < a iL := hmono iU iL hcon hLlt
  rcases abs_cases (a iL - L) with ⟨e1, s1⟩ | ⟨e1, s1⟩ <;>
    rcases abs_cases (a iU - L) with ⟨e2, s2⟩ | ⟨e2, s2⟩ <;>
      rcases abs_cases (a iU - U) with ⟨e3, s3⟩ | ⟨e3, s3⟩ <;>
        rcases abs_cases (a iL - U) with ⟨e4, s4⟩ | ⟨e4, s4⟩ <;>
          rw [e1, e2] at h1 <;> rw [e3, e4] at h2 <;> linarith

/-- Strict monotonicity of a list read through `getD`, from `Pairwise`. -/
theorem pairwise_lt_getD (l : List ℚ) (h : List.Pairwise (· < ·) l) :
    ∀ i j, i < j → j < l.length → l.getD i 0 < l.getD j 0 := by
  intro i j hij hj
  have hi : i < l.length := lt_trans hij hj
  rw [List.getD_eq_getElem l 0 hi, List.getD_eq_getElem l 0 hj]
  exact List.pairwise_iff_get.mp h ⟨i, hi⟩ ⟨j, hj⟩ hij

/-- C6 (amended): for every supported filter and nonempty strictly increasing
axis, `restrict_wavelength` returns indices `lo ≤ hi`, both valid positions in
the axis. (`lo < hi` can fail: both argmins coincide when the filter window
lies outside the axis range, see the counterexample.) -/
theorem restrict_wavelength_idx_le (axis : List ℚ) (filt : String)
    (lines : List String) (bl bu : ℚ)
    (hf : filter_bounds filt lines = some (bl, bu))
    (hne : axis ≠ []) (hinc : List.Pairwise (· < ·) axis) :
    (restrict_wavelength_idx axis bl bu).1 ≤ (restrict_wavelength_idx axis bl bu).2 ∧
      (restrict_wavelength_idx axis bl bu).1 < axis.length ∧
      (restrict_wavelength_idx axis bl bu).2 < axis.length := by
  have hn : 0 < axis.length := List.length_pos.mpr hne
  have hblu : bl < bu := filter_bounds_ordered filt lines bl bu hf
  have hmono := pairwise_lt_getD axis hinc
  refine ⟨?_, ?_, ?_⟩
  · exact argminIdx_abs_mono (fun i => axis.getD i 0) axis.length bl bu hn hmono hblu
  · exact (argminIdx_isFirstMin (fun i => |axis.getD i 0 - bl|) axis.length hn).1
  · exact (argminIdx_isFirstMin (fun i => |axis.getD i 0 - bu|) axis.length hn).1

/-- Witness for C6: the SN3 filter on the strictly increasing axis
`[14600, 15300, 16000]` yields valid, ordered indices. -/
theorem restrict_wavelength_idx_le_witness :
    (restrict_wavelength_idx [(14600 : ℚ), 15300, 16000] 14500 15400).1 ≤
        (restrict_wavelength_idx [(14600 : ℚ), 15300, 16000] 14500 15400).2 ∧
      (restrict_wavelength_idx [(14600 : ℚ), 15300, 16000] 14500 15400).1 <
        ([(14600 : ℚ), 15300, 16000] : List ℚ).length ∧
      (restrict_wavelength_idx [(14600 : ℚ), 15300, 16000] 14500 15400).2 <
        ([(14600 : ℚ), 15300, 16000] : List ℚ).length :=
  restrict_wavelength_idx_le [(14600 : ℚ), 15300, 16000] "SN3" ["Halpha"]
    14500 15400 (by decide) (by decide) (by decide)

/-- Counterexample for C6 as stated: SN3 is supported and `[20000, 20001]` is
strictly increasing, yet both returned indices are `0`, so `loIdx < hiIdx`
fails. -/
theorem restrict_wavelength_idx_not_lt :
    filter_bounds "SN3" ["Halpha"] = some (14500, 15400) ∧
      List.Pairwise (· < ·) [(20000 : ℚ), 20001] ∧
      restrict_wavelength_idx [(20000 : ℚ), 20001] 14500 15400 = (0, 0) ∧
      ¬ (restrict_wavelength_idx [(20000 : ℚ), 20001] 14500 15400).1 <
          (restrict_wavelength_idx [(20000 : ℚ), 20001] 14500 15400).2 := by
  have h : restrict_wavelength_idx [(20000 : ℚ), 20001] 14500 15400 = (0, 0) := by
    simp [restrict_wavelength_idx, argminIdx]
    norm_num
  exact ⟨by decide, by decide, h, by rw [h]; decide⟩

/-! ### ResultAssembler: goodness of fit (calc_chisquare) -/

/-- Translation of `Fit.calc_chisquare` (lines 607-626): the relative
residual vector `z = (fit[lo:hi] − obs[lo:hi]) / obs[lo:hi]` over the
restricted window, `chi2 = Σ z²` and `chi2dof = chi2 / (n_dof − 1)`.
The window `(lo, hi)` is the index pair recomputed by
`restrict_wavelength` at line 622. -/
def calc_chisquare (fit_vector init_spectrum : List ℚ) (lo hi : Nat)
    (n_dof : Nat) : ℚ × ℚ :=
  let fslice := (fit_vector.take hi).drop lo
  let sslice := (init_spectrum.take hi).drop lo
  let z := List.zipWith (fun f s => (f - s) / s) fslice sslice
  let chi2 := (z.map (fun t => t ^ 2)).sum
  (chi2, chi2 / ((n_dof : ℚ) - 1))

theorem sum_map_zipWith_eq_sum_range (g : ℚ → ℚ → ℚ) (q : ℚ → ℚ) :
    ∀ (a b : List ℚ), a.length = b.length →
      ((List.zipWith g a b).map q).sum =
        ∑ i in Finset.range a.length, q (g (a.getD i 0) (b.getD i 0)) := by
  intro a
  induction a with
  | nil => intro b _; simp
  | cons x xs ih =>
    intro b hb
    cases b with
    | nil => simp at hb
    | cons y ys =>
      simp only [List.length_cons] at hb
      have hb2 : xs.length = ys.length := Nat.succ_injective hb
      simp only [List.zipWith_cons_cons, List.map_cons, List.sum_cons,
        List.length_cons, Finset.sum_range_succ']
      rw [ih ys hb2]
      simp [add_comm]

theorem slice_getD (l : List ℚ) (lo hi i : Nat) (h1 : lo + i < hi) :
    ((l.take hi).drop lo).getD i 0 = l.getD (lo + i) 0 := by
  rw [List.getD_eq_getElem?_getD, List.getD_eq_getElem?_getD,
    List.getElem?_drop, List.getElem?_take_of_lt h1]

/-- C7: `calc_chisquare` with `n_dof = 3·lineCount + 1` (as passed at
line 516) returns `χ² = Σ_{i ∈ [lo,hi)} ((fit_i − obs_i)/obs_i)²` and
`χ²_red = χ² / (n_dof − 1)`. -/
theorem calc_chisquare_spec (fit_vector init_spectrum : List ℚ)
    (lo hi lineCount : Nat)
    (hf : hi ≤ fit_vector.length) (hs : hi ≤ init_spectrum.length)
    (hlh : lo ≤ hi) :
    (calc_chisquare fit_vector init_spectrum lo hi (3 * lineCount + 1)).1 =
        ∑ i in Finset.Ico lo hi,
          ((fit_vector.getD i 0 - init_spectrum.getD i 0) /
              init_spectrum.getD i 0) ^ 2 ∧
      (calc_chisquare fit_vector init_spectrum lo hi (3 * lineCount + 1)).2 =
        (calc_chisquare fit_vector init_spectrum lo hi (3 * lineCount + 1)).1 /
          ((3 * lineCount + 1 : ℚ) - 1) := by
  constructor
  · show (List.zipWith _ ((fit_vector.take hi).drop lo)
        ((init_spectrum.take hi).drop lo) |>.map _).sum = _
    have hflen : ((fit_vector.take hi).drop lo).length = hi - lo := by
      simp [List.length_drop, List.length_take, Nat.min_eq_left hf]
    have hslen : ((init_spectrum.take hi).drop lo).length = hi - lo := by
      simp [List.length_drop, List.length_take, Nat.min_eq_left hs]
    rw [sum_map_zipWith_eq_sum_range (fun f s => (f - s) / s) (fun t => t ^ 2) _ _
        (by rw [hflen, hslen])]
    rw [hflen, Finset.sum_Ico_eq_sum_range]
    refine Finset.sum_congr rfl ?_
    intro i hi'
    have hlt : lo + i < hi := by
      have := Finset.mem_range.mp hi'
      omega
    rw [slice_getD _ _ _ _ hlt, slice_getD _ _ _ _ hlt]
  · have hcast : ((3 * lineCount + 1 : Nat) : ℚ) = 3 * (lineCount : ℚ) + 1 := by
      push_cast; ring
    show (List.zipWith _ ((fit_vector.take hi).drop lo)
          ((init_spectrum.take hi).drop lo) |>.map _).sum /
        (((3 * lineCount + 1 : Nat) : ℚ) - 1) = _
    rw [hcast]
    rfl

/-- Witness for C7 at `fit = [1,2,4]`, `obs = [1,1,2]`, window `[1,3)`,
one line. -/
theorem calc_chisquare_spec_witness :
    (calc_chisquare [(1 : ℚ), 2, 4] [1, 1, 2] 1 3 (3 * 1 + 1)).1 =
        ∑ i in Finset.Ico 1 3,
          ((([(1 : ℚ), 2, 4] : List ℚ).getD i 0 -
              ([(1 : ℚ), 1, 2] : List ℚ).getD i 0) /
            ([(1 : ℚ), 1, 2] : List ℚ).getD i 0) ^ 2 ∧
      (calc_chisquare [(1 : ℚ), 2, 4] [1, 1, 2] 1 3 (3 * 1 + 1)).2 =
        (calc_chisquare [(1 : ℚ), 2, 4] [1, 1, 2] 1 3 (3 * 1 + 1)).1 /
          ((3 * 1 + 1 : ℚ) - 1) :=
  calc_chisquare_spec [(1 : ℚ), 2, 4] [1, 1, 2] 1 3 1
    (by decide) (by decide) (by decide)

/-! ### PriorEstimator: analytic velocity estimate (line_vals_estimate) -/

/-- Model of `np.argmax` over a list: first index of the maximum. -/
def np_argmax (l : List ℚ) : Nat := argmaxIdx (fun i => l.getD i 0) l.length

/-- Analytic prior of `Fit.line_vals_estimate` (lines 294-298), taken when no
ML model is supplied: `max_flux = np.argmax(self.spectrum_normalized)` and
`self.vel_ml = np.abs(3e5 * ((1e7 / self.axis[max_flux] - line_theo) /
line_theo))`. -/
def line_vals_estimate_vel (spectrum_normalized axis : List ℚ)
    (line_theo : ℚ) : ℚ :=
  |300000 * ((10000000 / axis.getD (np_argmax spectrum_normalized) 0 -
      line_theo) / line_theo)|

/-- Fixed default broadening `self.broad_ml = 10.0` (line 298). -/
def line_vals_estimate_broad : ℚ := 10

/-- C5 (amended): the analytic prior locates the global peak of the
normalized spectrum (first index attaining the maximum) and returns the
ABSOLUTE VALUE of `c·(λ_obs − λ_rest)/λ_rest` with `c = 3e5` and
`λ_obs = 1e7 / axis[peak]`, together with the fixed default broadening 10. -/
theorem line_vals_estimate_analytic (spectrum_normalized axis : List ℚ)
    (line_theo : ℚ) (hne : spectrum_normalized ≠ []) :
    np_argmax spectrum_normalized < spectrum_normalized.length ∧
      (∀ j, j < spectrum_normalized.length →
        spectrum_normalized.getD j 0 ≤
          spectrum_normalized.getD (np_argmax spectrum_normalized) 0) ∧
      line_vals_estimate_vel spectrum_normalized axis line_theo =
        |300000 * ((10000000 /
            axis.getD (np_argmax spectrum_normalized) 0 - line_theo) /
          line_theo)| ∧
      line_vals_estimate_broad = 10 := by
  have hn : 0 < spectrum_normalized.length := List.length_pos.mpr hne
  obtain ⟨hlt, hmax, _⟩ :=
    argmaxIdx_isFirstMax (fun i => spectrum_normalized.getD i 0)
      spectrum_normalized.length hn
  exact ⟨hlt, fun j hj => hmax j hj, rfl, rfl⟩

/-- Witness for C5 at spectrum `[1, 3, 2]`, axis `[16000, 15000, 14800]`,
line Halpha. -/
theorem line_vals_estimate_analytic_witness :
    np_argmax [(1 : ℚ), 3, 2] < ([(1 : ℚ), 3, 2] : List ℚ).length ∧
      (∀ j, j < ([(1 : ℚ), 3, 2] : List ℚ).length →
        ([(1 : ℚ), 3, 2] : List ℚ).getD j 0 ≤
          ([(1 : ℚ), 3, 2] : List ℚ).getD (np_argmax [(1 : ℚ), 3, 2]) 0) ∧
      line_vals_estimate_vel [(1 : ℚ), 3, 2] [16000, 15000, 14800] 656.280 =
        |300000 * ((10000000 /
            ([(16000 : ℚ), 15000, 14800] : List ℚ).getD
              (np_argmax [(1 : ℚ), 3, 2]) 0 - 656.280) / 656.280)| ∧
      line_vals_estimate_broad = 10 :=
  line_vals_estimate_analytic [(1 : ℚ), 3, 2] [16000, 15000, 14800] 656.280
    (by decide)

/-- Counterexample for C5 as stated: with the peak at 16000 cm⁻¹ the observed
wavelength 625 nm is blueward of Halpha's 656.28 nm, so the claim's signed
Doppler formula is negative while the code returns its absolute value. -/
theorem line_vals_estimate_vel_sign :
    line_vals_estimate_vel [(1 : ℚ)] [16000] 656.280 ≠
        300000 * ((10000000 / (16000 : ℚ) - 656.280) / 656.280) ∧
      line_vals_estimate_vel [(1 : ℚ)] [16000] 656.280 =
        -(300000 * ((10000000 / (16000 : ℚ) - 656.280) / 656.280)) := by
  have h : line_vals_estimate_vel [(1 : ℚ)] [16000] 656.280 =
      78200000 / 5469 := by
    simp [line_vals_estimate_vel, np_argmax, argmaxIdx]
    norm_num
  constructor
  · rw [h]; norm_num
  · rw [h]; norm_num

/-! ### ConstraintBuilder (sigma_constraints, vel_constraints,
multiple_component_vel_constraint)

The constraint dictionaries hold lambdas that close over the loop variables
`ind_0` and `ind_unique` of the builder's Python frame. Python closures
capture variables, not values, so a lambda invoked by the SLSQP solver after
the builder has returned reads the FINAL bindings of those variables. The
observable content of a builder's result is therefore the number of appended
lambdas together with the final frame. -/

/-- Final bindings of the builder loop variables, read by every appended
constraint lambda at call time. -/
structure BuilderFrame where
  ind_0 : Nat
  ind_unique : Nat
deriving DecidableEq

/-- Model of `np.unique` for natural-number group ids: the distinct values in
increasing order. -/
def np_unique (l : List Nat) : List Nat :=
  (List.range (l.foldr max 0 + 1)).filter (fun g => g ∈ l)

/-- Line indices belonging to group `g`:
`[i for i, e in enumerate(rel) if e == unique_]`. -/
def groupIndices (rel : List Nat) (g : Nat) : List Nat :=
  (List.range rel.length).filter (fun i => rel.getD i 0 = g)

/-- Translation of `Fit.sigma_constraints` (lines 375-389): number of
equality-constraint lambdas appended to `sigma_dict_list`, with the final
frame every one of them reads when called later. -/
def sigma_constraints (sigma_rel : List Nat) : Nat × BuilderFrame :=
  (np_unique sigma_rel).foldl
    (fun acc g =>
      let inds_unique := groupIndices sigma_rel g
      if 1 < inds_unique.length then
        inds_unique.tail.foldl
          (fun acc2 e => (acc2.1 + 1, ⟨inds_unique.headD 0, e⟩))
          (acc.1, ⟨inds_unique.headD 0, acc.2.ind_unique⟩)
      else acc)
    (0, ⟨0, 0⟩)

/-- Value computed by ANY of the appended sigma-constraint lambdas when the
solver calls it after the builder returned (line 388:
`lambda x: x[3*ind_0+2] - x[3*ind_unique+2]`, with both indices read from the
frame's final bindings). -/
def evalSigmaConstraint (st : Nat × BuilderFrame) (x : List ℚ) : ℚ :=
  x.getD (3 * st.2.ind_0 + 2) 0 - x.getD (3 * st.2.ind_unique + 2) 0

/-- Translation of `Fit.vel_constraints` (lines 391-407): for each extra
group member `expr_dict` is bound (lines 404-406) but never appended to
`vel_dict_list`, which is returned as initialized. -/
def vel_constraints (vel_rel : List Nat) : List BuilderFrame :=
  (np_unique vel_rel).foldl
    (fun vel_dict_list g =>
      let inds_unique := groupIndices vel_rel g
      if 1 < inds_unique.length then
        -- lines 404-406 rebind expr_dict here for each extra member;
        -- no append to vel_dict_list occurs
        vel_dict_list
      else vel_dict_list)
    []

/-- Model of `np.unique` for line-name lists: the distinct values (numpy also
sorts them; the group order affects nothing proved here because the builder
appends nothing). -/
def np_unique_str (l : List String) : List String := l.dedup

/-- Translation of `Fit.multiple_component_vel_constraint` (lines 410-426):
for repeated line names an inequality `expr_dict` is bound (line 425) but
never appended; the returned list is always empty. -/
def multiple_component_vel_constraint (lines : List String) :
    List BuilderFrame :=
  (np_unique_str lines).foldl
    (fun vel_dict_list u =>
      let inds_unique := (List.range lines.length).filter
        (fun i => lines.getD i "" = u)
      if 1 < inds_unique.length then
        -- line 425 binds expr_dict; no append occurs
        vel_dict_list
      else vel_dict_list)
    []

/-- Constraint set passed to the SLSQP minimizer in `calculate_params`
(lines 456-462): `cons = sigma_cons + vel_cons`. The multiple-component
builder call is commented out at lines 458-459. The total is the number of
sigma lambdas plus the (empty) velocity list's length. -/
def calculate_params_cons (sigma_rel vel_rel : List Nat) : Nat :=
  (sigma_constraints sigma_rel).1 + (vel_constraints vel_rel).length

/-- C1: `vel_constraints` returns an empty list for EVERY velocity-group
assignment (the equality `expr_dict` is built but never appended), so the
constraint set passed to the minimizer never contains a velocity equality
constraint: it consists of the sigma constraints alone. -/
theorem vel_constraints_always_empty (vel_rel sigma_rel : List Nat) :
    vel_constraints vel_rel = [] ∧
      calculate_params_cons sigma_rel vel_rel =
        (sigma_constraints sigma_rel).1 := by
  have hempty : vel_constraints vel_rel = [] := by
    unfold vel_constraints
    generalize np_unique vel_rel = gs
    induction gs with
    | nil => rfl
    | cons g gs ih =>
      rw [List.foldl_cons]
      simp only [ite_self] at ih ⊢
      exact ih
  refine ⟨hempty, ?_⟩
  unfold calculate_params_cons
  rw [hempty]
  simp

/-- C2: `multiple_component_vel_constraint` returns an empty list for EVERY
line list (the inequality `expr_dict` is built but never appended), and the
constraint set handed to the minimizer is assembled from the sigma and
velocity builders only — the multiple-component builder is not consulted. -/
theorem multiple_component_vel_constraint_always_empty (lines : List String)
    (sigma_rel vel_rel : List Nat) :
    multiple_component_vel_constraint lines = [] ∧
      calculate_params_cons sigma_rel vel_rel =
        (sigma_constraints sigma_rel).1 + (vel_constraints vel_rel).length := by
  constructor
  · unfold multiple_component_vel_constraint
    generalize np_unique_str lines = us
    induction us with
    | nil => rfl
    | cons u us ih =>
      rw [List.foldl_cons]
      simp only [ite_self] at ih ⊢
      exact ih
  · rfl

/-- C3: closure capture in `sigma_constraints`. For `sigma_rel = [1, 1, 1]`
(one width group with member indices 0 < 1 < 2) the builder appends exactly
two equality lambdas, but both of them read the final loop bindings
`ind_0 = 0`, `ind_unique = 2`, so at
`x = [0, 0, 0, 0, 0, 5, 0, 0, 9, 0]` the first constraint evaluates to
`x[2] − x[8] = −9` instead of the claimed `x[2] − x[5] = −5`. -/
theorem sigma_constraints_closure_capture :
    sigma_constraints [1, 1, 1] = (2, ⟨0, 2⟩) ∧
      evalSigmaConstraint (sigma_constraints [1, 1, 1])
          [0, 0, 0, 0, 0, 5, 0, 0, 9, 0] = -9 ∧
      evalSigmaConstraint (sigma_constraints [1, 1, 1])
          [0, 0, 0, 0, 0, 5, 0, 0, 9, 0] ≠
        ([0, 0, 0, 0, 0, 5, 0, 0, 9, 0] : List ℚ).getD 2 0 -
          ([0, 0, 0, 0, 0, 5, 0, 0, 9, 0] : List ℚ).getD 5 0 := by
  have h : sigma_constraints [1, 1, 1] = (2, ⟨0, 2⟩) := by decide
  refine ⟨h, ?_, ?_⟩
  · rw [h]
    norm_num [evalSigmaConstraint, List.getD]
  · rw [h]
    norm_num [evalSigmaConstraint, List.getD]

/-! ### Session construction (Fit.__init__, check_lines, check_fitting_model,
check_lengths) -/

/-- Failure modes of `Fit.__init__`. The payloads of the three validation
errors are exactly what the raise sites interpolate into their messages:
the list of available options for bad lines and bad models (lines 641 and
655), the offending and expected lengths for the group lists (lines 667
and 668). `emptySpectrum` is the `np.max` of an empty spectrum (line 84),
`nameErrorBounds` the NameError at line 197 when an unsupported filter left
the module globals unset, `emptyRestricted` the `np.max` of an empty
restricted slice (line 100). -/
inductive InitError where
  | emptySpectrum
  | nameErrorBounds
  | emptyRestricted
  | lineNotInCatalog (available : List String)
  | badFittingModel (available : List String)
  | velRelLength (got expected : Nat)
  | sigmaRelLength (got expected : Nat)
deriving DecidableEq

/-- The three validation methods called at the end of `Fit.__init__`
(lines 140-142): `check_lines` (lines 630-641), `check_fitting_model`
(lines 643-655) and `check_lengths` (lines 658-669), in that order. -/
def construction_checks (lines : List String) (model_type : String)
    (vel_rel sigma_rel : List Nat) : Except InitError Unit :=
  if lines.all (fun l => l ∈ line_dict_keys) then
    if model_type ∈ available_functions then
      if vel_rel.length = lines.length then
        if sigma_rel.length = lines.length then Except.ok ()
        else Except.error
          (InitError.sigmaRelLength sigma_rel.length lines.length)
      else Except.error (InitError.velRelLength vel_rel.length lines.length)
    else Except.error (InitError.badFittingModel available_functions)
  else Except.error (InitError.lineNotInCatalog line_dict_keys)

/-- Construction of a `Fit` session (`Fit.__init__`), modelling everything
that decides success or failure: the spectrum normalization (line 84),
`restrict_wavelength` (line 98) with the module-global bound variables `gb`
as fallback when the filter is unsupported, the restricted-spectrum
normalization (line 100), `calculate_noise` (line 115; `np.nanstd` raises on
no input shape, so it contributes no failure mode, only the possible second
unsupported-filter message), and the three validation checks
(lines 140-142). The first component collects the printed messages. -/
def fit_init (axis spectrum : List ℚ) (gb : Option (ℚ × ℚ)) (filt : String)
    (lines : List String) (model_type : String)
    (vel_rel sigma_rel : List Nat) :
    List String × Except InitError Unit :=
  if spectrum.length = 0 then ([], Except.error InitError.emptySpectrum)
  else
    let fb := filter_bounds filt lines
    let msgs1 : List String :=
      if fb.isNone then [unsupported_filter_msg] else []
    match fb.orElse (fun _ => gb) with
    | none => (msgs1, Except.error InitError.nameErrorBounds)
    | some (bl, bu) =>
      let lohi := restrict_wavelength_idx axis bl bu
      let restricted := (spectrum.take lohi.2).drop lohi.1
      if restricted.length = 0 then
        (msgs1, Except.error InitError.emptyRestricted)
      else
        let msgs2 := msgs1 ++
          (if (noise_bounds filt lines).isNone then [unsupported_filter_msg]
           else [])
        (msgs2, construction_checks lines model_type vel_rel sigma_rel)

theorem noise_bounds_none_of_filter_bounds_none (filt : String)
    (lines : List String) (h : filter_bounds filt lines = none) :
    noise_bounds filt lines = none := by
  unfold filter_bounds at h
  unfold noise_bounds
  split_ifs at h ⊢
  simp_all

/-- C4 (amended): an unsupported filter name does NOT fail the construction
with a configuration error. Both dispatchers print the unsupported-filter
message, the restriction proceeds with the stale module-global bounds `b`,
and the construction outcome is decided by the three validation checks
alone. -/
theorem fit_init_unsupported_filter (axis spectrum : List ℚ) (b : ℚ × ℚ)
    (filt : String) (lines : List String) (model_type : String)
    (vel_rel sigma_rel : List Nat)
    (hf : filter_bounds filt lines = none)
    (hspec : spectrum.length ≠ 0)
    (hres : ((spectrum.take (restrict_wavelength_idx axis b.1 b.2).2).drop
        (restrict_wavelength_idx axis b.1 b.2).1).length ≠ 0) :
    fit_init axis spectrum (some b) filt lines model_type vel_rel sigma_rel =
      ([unsupported_filter_msg, unsupported_filter_msg],
        construction_checks lines model_type vel_rel sigma_rel) := by
  obtain ⟨bl, bu⟩ := b
  have hn := noise_bounds_none_of_filter_bounds_none filt lines hf
  unfold fit_init
  rw [if_neg hspec, hf, hn]
  simp only [Option.isNone_none, if_pos trivial, Option.orElse, Option.none_orElse]
  simp only [hf] at hres ⊢
  rw [if_neg hres]
  rfl

/-- Witness for C4: the unrecognized filter "SN4" with stale SN3 bounds on a
concrete axis; construction runs the checks (which succeed) after printing
twice. -/
theorem fit_init_unsupported_filter_witness :
    fit_init [(14000 : ℚ), 15000, 16000] [1, 2, 3] (some (14500, 15400))
        "SN4" ["Halpha"] "gaussian" [1] [1] =
      ([unsupported_filter_msg, unsupported_filter_msg],
        construction_checks ["Halpha"] "gaussian" [1] [1]) :=
  fit_init_unsupported_filter [(14000 : ℚ), 15000, 16000] [1, 2, 3]
    (14500, 15400) "SN4" ["Halpha"] "gaussian" [1] [1]
    (by decide) (by decide)
    (by simp [restrict_wavelength_idx, argminIdx]; norm_num)

/-- Counterexample for C4 as stated: with the unrecognized filter "SN4" (and
SN3 bounds left in the module globals by an earlier session) construction
reports the filter twice on stdout and then SUCCEEDS — no configuration
error is raised and the wavelength restriction and noise estimation are
carried out. -/
theorem fit_init_unsupported_filter_no_error :
    filter_bounds "SN4" ["Halpha"] = none ∧
      fit_init [(14000 : ℚ), 15000, 16000] [1, 2, 3] (some (14500, 15400))
          "SN4" ["Halpha"] "gaussian" [1] [1] =
        ([unsupported_filter_msg, unsupported_filter_msg], Except.ok ()) := by
  constructor
  · decide
  · have hidx : restrict_wavelength_idx [(14000 : ℚ), 15000, 16000]
        14500 15400 = (0, 1) := by
      simp [restrict_wavelength_idx, argminIdx]
      norm_num
    unfold fit_init
    rw [if_neg (by decide)]
    have hfb : filter_bounds "SN4" ["Halpha"] = none := by decide
    have hnb : noise_bounds "SN4" ["Halpha"] = none := by decide
    simp only [hfb, hnb, Option.isNone_none, if_pos trivial, Option.orElse,
      Option.none_orElse, hidx]
    rw [if_neg (by decide)]
    have hchk : construction_checks ["Halpha"] "gaussian" [1] [1] =
        Except.ok () := by rfl
    rw [hchk]
    rfl

/-- C9 (amended): the construction checks succeed iff every requested line is
in the catalog, the model type is one of the three supported names, and both
group lists have the line list's length; otherwise the first failed check
raises. -/
theorem construction_checks_ok_iff (lines : List String) (model_type : String)
    (vel_rel sigma_rel : List Nat) :
    construction_checks lines model_type vel_rel sigma_rel = Except.ok () ↔
      ((∀ l ∈ lines, l ∈ line_dict_keys) ∧
        model_type ∈ available_functions ∧
        vel_rel.length = lines.length ∧
        sigma_rel.length = lines.length) := by
  unfold construction_checks
  split_ifs with h1 h2 h3 h4
  · simp_all [List.all_eq_true]
  · simp_all [List.all_eq_true]
  · simp_all [List.all_eq_true]
  · simp_all [List.all_eq_true]
  · simp_all [List.all_eq_true]

/-- Counterexample for C9's reporting clause: a bad line name raises an
error whose payload (interpolated into the message at line 641) is the list
of available catalog keys — the offending value "LineX" itself is not
reported. -/
theorem construction_checks_error_payload :
    construction_checks ["LineX"] "gaussian" [1] [1] =
        Except.error (InitError.lineNotInCatalog line_dict_keys) ∧
      "LineX" ∉ line_dict_keys := by
  refine ⟨by rfl, by decide⟩

/-! ### ResultAssembler: the returned dictionary (Fit.fit) -/

/-- Values stored in the dictionary returned by `Fit.fit`. -/
inductive FitValue where
  | num (q : ℚ)
  | vec (v : List ℚ)
deriving DecidableEq

/-- Translation of the result-dictionary literal of `Fit.fit`
(lines 535-541), in the source's entry order. `red_chi_sqr` is the SECOND
component of `calc_chisquare` (line 516), stored under the key "chi2"; the
first component `chi_sqr` is bound at line 516 but stored nowhere. The
"continuum" entry is `fit_sol[-1]`. -/
def assemble_fit_dict (fit_sol uncertainties fit_vector axis : List ℚ)
    (ampls fluxes flux_errors : List ℚ) (red_chi_sqr : ℚ)
    (vels sigmas vels_errors sigmas_errors : List ℚ)
    (axis_step corr scale : ℚ) : List (String × FitValue) :=
  [("fit_sol", FitValue.vec fit_sol),
   ("fit_uncertainties", FitValue.vec uncertainties),
   ("fit_vector", FitValue.vec fit_vector),
   ("fit_axis", FitValue.vec axis),
   ("amplitudes", FitValue.vec ampls),
   ("fluxes", FitValue.vec fluxes),
   ("flux_errors", FitValue.vec flux_errors),
   ("chi2", FitValue.num red_chi_sqr),
   ("velocities", FitValue.vec vels),
   ("sigmas", FitValue.vec sigmas),
   ("vels_errors", FitValue.vec vels_errors),
   ("sigmas_errors", FitValue.vec sigmas_errors),
   ("axis_step", FitValue.num axis_step),
   ("corr", FitValue.num corr),
   ("continuum", FitValue.num (fit_sol.getD (fit_sol.length - 1) 0)),
   ("scale", FitValue.num scale)]

/-- C8 (amended): for every completed fit the returned record's keys are
exactly the sixteen dict keys of line 535-541; the key "chi2" holds the
REDUCED chi-square, "corr" the correction factor, "continuum" the last fit
parameter and "fit_uncertainties" the uncertainty vector. No key holds the
unreduced chi-square or the noise estimate. -/
theorem assemble_fit_dict_contents (fit_sol uncertainties fit_vector axis
    ampls fluxes flux_errors : List ℚ) (red_chi_sqr : ℚ)
    (vels sigmas vels_errors sigmas_errors : List ℚ)
    (axis_step corr scale : ℚ) :
    (assemble_fit_dict fit_sol uncertainties fit_vector axis ampls fluxes
        flux_errors red_chi_sqr vels sigmas vels_errors sigmas_errors
        axis_step corr scale).map Prod.fst =
        ["fit_sol", "fit_uncertainties", "fit_vector", "fit_axis",
         "amplitudes", "fluxes", "flux_errors", "chi2", "velocities",
         "sigmas", "vels_errors", "sigmas_errors", "axis_step", "corr",
         "continuum", "scale"] ∧
      ("chi2", FitValue.num red_chi_sqr) ∈
        assemble_fit_dict fit_sol uncertainties fit_vector axis ampls fluxes
          flux_errors red_chi_sqr vels sigmas vels_errors sigmas_errors
          axis_step corr scale ∧
      ("corr", FitValue.num corr) ∈
        assemble_fit_dict fit_sol uncertainties fit_vector axis ampls fluxes
          flux_errors red_chi_sqr vels sigmas vels_errors sigmas_errors
          axis_step corr scale ∧
      ("fit_uncertainties", FitValue.vec uncertainties) ∈
        assemble_fit_dict fit_sol uncertainties fit_vector axis ampls fluxes
          flux_errors red_chi_sqr vels sigmas vels_errors sigmas_errors
          axis_step corr scale ∧
      ("continuum", FitValue.num (fit_sol.getD (fit_sol.length - 1) 0)) ∈
        assemble_fit_dict fit_sol uncertainties fit_vector axis ampls fluxes
          flux_errors red_chi_sqr vels sigmas vels_errors sigmas_errors
          axis_step corr scale := by
  refine ⟨rfl, ?_, ?_, ?_, ?_⟩ <;> simp [assemble_fit_dict]

/-- Counterexample for C8 as stated: a completed fit whose chi-square is 8
and whose reduced chi-square is 8/3; the returned dictionary holds the
reduced value (under "chi2") but no entry anywhere holds the chi-square
statistic itself. -/
theorem assemble_fit_dict_omits_chi_square :
    (calc_chisquare [(3 : ℚ), 3] [1, 1] 0 2 4).1 = 8 ∧
      ("chi2", FitValue.num ((calc_chisquare [(3 : ℚ), 3] [1, 1] 0 2 4).2)) ∈
        assemble_fit_dict [0, 0, 1, (1 : ℚ)/2] [0, 0, 0, 0] [3, 3] [1, 1]
          [1] [1] [0] ((calc_chisquare [(3 : ℚ), 3] [1, 1] 0 2 4).2)
          [0] [0] [0] [0] (1/7) 1 5 ∧
      FitValue.num ((calc_chisquare [(3 : ℚ), 3] [1, 1] 0 2 4).1) ∉
        (assemble_fit_dict [0, 0, 1, (1 : ℚ)/2] [0, 0, 0, 0] [3, 3] [1, 1]
          [1] [1] [0] ((calc_chisquare [(3 : ℚ), 3] [1, 1] 0 2 4).2)
          [0] [0] [0] [0] (1/7) 1 5).map Prod.snd := by
  have h1 : (calc_chisquare [(3 : ℚ), 3] [1, 1] 0 2 4).1 = 8 := by
    norm_num [calc_chisquare]
  have h2 : (calc_chisquare [(3 : ℚ), 3] [1, 1] 0 2 4).2 = 8 / 3 := by
    norm_num [calc_chisquare]
  refine ⟨h1, ?_, ?_⟩
  · simp [assemble_fit_dict]
  · rw [h1, h2]
    simp only [assemble_fit_dict, List.map_cons, List.map_nil,
      List.mem_cons, List.not_mem_nil]
    norm_num [List.getD]
    decide

/-! ### Optimizer bookkeeping: the uncertainty vector without estimation
(Fit.__init__ line 131, calculate_params lines 463-479, fit lines 534-542) -/

/-- Amplitude-entry rescaling loop of `calculate_params` applied to the
uncertainty vector (lines 474-476): for `i in range(line_num)`,
`uncertainties[3*i] *= spectrum_scale`. -/
def scale_amp_entries (u : List ℚ) (scale : ℚ) : Nat → List ℚ
  | 0 => u
  | i + 1 =>
    let u2 := scale_amp_entries u scale i
    u2.set (3 * i) (u2.getD (3 * i) 0 * scale)

/-- Uncertainty vector reaching the result dictionary when
`uncertainty_bool = False` and `bayes_bool = False`: initialized to zeros of
length `3*line_num + 1` (line 131), the Hessian branch is skipped (line 464),
the Bayesian stage is skipped (line 513), and only the amplitude entries and
the continuum entry are rescaled by `spectrum_scale` (lines 476 and 479). -/
def fit_uncertainties_no_estimation (line_num : Nat) (scale : ℚ) : List ℚ :=
  let u := List.replicate (3 * line_num + 1) 0
  let u2 := scale_amp_entries u scale line_num
  u2.set (u2.length - 1) (u2.getD (u2.length - 1) 0 * scale)

theorem getD_replicate_zero (m j : Nat) :
    (List.replicate m (0 : ℚ)).getD j 0 = 0 := by
  induction m generalizing j with
  | zero => simp
  | succ k ih =>
    cases j with
    | zero => simp [List.replicate]
    | succ j2 =>
      simp only [List.replicate, List.getD_cons_succ]
      exact ih j2

theorem set_replicate_zero (m j : Nat) :
    (List.replicate m (0 : ℚ)).set j 0 = List.replicate m 0 := by
  induction m generalizing j with
  | zero => simp
  | succ k ih =>
    cases j with
    | zero => simp [List.replicate]
    | succ j2 =>
      simp only [List.replicate, List.set_cons_succ]
      rw [ih j2]

theorem scale_amp_entries_zero (m : Nat) (scale : ℚ) :
    ∀ k, scale_amp_entries (List.replicate m 0) scale k =
      List.replicate m 0 := by
  intro k
  induction k with
  | zero => rfl
  | succ i ih =>
    show (scale_amp_entries (List.replicate m 0) scale i).set _ _ = _
    rw [ih, getD_replicate_zero, zero_mul, set_replicate_zero]

/-- C10: with uncertainty estimation and Bayesian refinement both disabled,
the uncertainty vector in the returned result is the all-zero vector of
length `3*line_num + 1` — it is only ever rescaled, never recomputed. -/
theorem fit_uncertainties_no_estimation_zero (line_num : Nat) (scale : ℚ) :
    fit_uncertainties_no_estimation line_num scale =
      List.replicate (3 * line_num + 1) 0 := by
  show (scale_amp_entries (List.replicate (3 * line_num + 1) 0) scale
      line_num).set _ _ = _
  rw [scale_amp_entries_zero, getD_replicate_zero, zero_mul,
    set_replicate_zero]

end LuciFit
